import Mathlib

/-!
Shallow embedding of the dual N-back trial engine:
the stimulus-sequence generator (`generateSequence`), the game reducer
(`gameReducer`), and the scoring calculator (`calculateResults`),
together with theorems checking the specification's claims.

Modelling conventions:
* JS `number` values that the code treats as integers are embedded as
  `Nat`/`Int` (durations and timestamps as `Int`, counts and indices as
  `Nat` where the code keeps them non-negative).
* `Math.random()` is abstracted as a stream `Nat → Nat` of draws together
  with a running position; each call site interprets the drawn natural
  (`% 9` for grid cells, `% 8` for letters, `% 4 = 0` for the
  probability-0.25 match roll).  Every real execution corresponds to some
  stream, and the theorems quantify over all streams.
* The `do … while` redraw loops of the generator can diverge for an
  adversarial stream, so they carry fuel; `none` models a non-terminating
  (or, for the reducer, a throwing) execution.
* A JS property access on `undefined` (e.g. `sequence[i].visualPosition`
  when `i` is out of range, or destructuring `state.settings!` when
  settings are `null`) throws a `TypeError`; the reducer therefore returns
  `Option GameReducerState`, with `none` embedding the thrown exception.
* Exact rational arithmetic stands in for JS float arithmetic in the
  scoring rates; on all inputs exercised by the claims the float results
  are exact, so the two agree there.
-/

/-! ## Data model (src types and constants) -/

inductive GameMode
  | Visual
  | Audio
  | Dual
deriving DecidableEq

structure GameSettings where
  gameMode : GameMode
  nLevel : Nat
  stimulusDuration : Int
  interStimulusInterval : Int
  sessionDuration : Nat
  visualMatchKey : String
  audioMatchKey : String
deriving DecidableEq

/-- One stimulus: a grid position 0–8 and/or a letter, `none` when the game
mode disables the channel. -/
structure Stimulus where
  visualPosition : Option Nat
  audioLetter : Option Char
deriving DecidableEq

instance : Inhabited Stimulus := ⟨⟨none, none⟩⟩

inductive FeedbackType
  | correct
  | miss
  | falseAlarm
deriving DecidableEq

/-- Per-trial user response record (`{ visual: boolean | null, audio: boolean | null }`). -/
structure TrialResponse where
  visual : Option Bool
  audio : Option Bool
deriving DecidableEq

instance : Inhabited TrialResponse := ⟨⟨none, none⟩⟩

structure FeedbackPair where
  visual : Option FeedbackType
  audio : Option FeedbackType
deriving DecidableEq

def GRID_CELL_COUNT : Nat := 9

def AUDIO_LETTERS : List Char := ['C', 'H', 'K', 'L', 'Q', 'R', 'S', 'T']

def FEEDBACK_DURATION_MS : Int := 500

def DEFAULT_SETTINGS : GameSettings :=
  { gameMode := GameMode.Dual
    nLevel := 2
    stimulusDuration := 1500
    interStimulusInterval := 2500
    sessionDuration := 120
    visualMatchKey := "a"
    audioMatchKey := "l" }

/-! ## Sequence generator (`generateSequence` in src) -/

/-- `minVisualMatches`/`minAudioMatches`: `Math.ceil(sessionDuration / 30 * 3)`
for an enabled channel, i.e. ⌈s / 10⌉ in exact arithmetic (the claims only
exercise inputs on which the float computation is exact, e.g. 120 ↦ 12). -/
def minMatchesTarget (sessionDuration : Nat) : Nat :=
  (sessionDuration + 9) / 10

/-- `getRandomVisual`: `null` in Audio mode, else a uniformly drawn grid cell. -/
def getRandomVisual (mode : GameMode) (r : Nat) : Option Nat :=
  if mode = GameMode.Audio then none else some (r % GRID_CELL_COUNT)

/-- `getRandomAudio`: `null` in Visual mode, else a uniformly drawn letter. -/
def getRandomAudio (mode : GameMode) (r : Nat) : Option Char :=
  if mode = GameMode.Visual then none
  else some (AUDIO_LETTERS.getD (r % AUDIO_LETTERS.length) 'C')

/-- The visual `do … while` redraw loop: draw, and redraw while
`i >= nLevel && gameMode !== Audio && v === nbVis && v !== null`.
In Audio mode `getRandomVisual` consumes no random draw (the JS ternary
short-circuits before `Math.random()`), so the position is unchanged. -/
def drawVisualNonMatch (mode : GameMode) (n i : Nat) (nbVis : Option Nat)
    (stream : Nat → Nat) : Nat → Nat → Option (Option Nat × Nat)
  | _, 0 => none
  | pos, fuel + 1 =>
    let (v, pos') :
        Option Nat × Nat :=
      if mode = GameMode.Audio then (none, pos)
      else (some (stream pos % GRID_CELL_COUNT), pos + 1)
    if n ≤ i ∧ mode ≠ GameMode.Audio ∧ v = nbVis ∧ v ≠ none then
      drawVisualNonMatch mode n i nbVis stream pos' fuel
    else
      some (v, pos')

/-- The audio `do … while` redraw loop, mirroring `drawVisualNonMatch`. -/
def drawAudioNonMatch (mode : GameMode) (n i : Nat) (nbAud : Option Char)
    (stream : Nat → Nat) : Nat → Nat → Option (Option Char × Nat)
  | _, 0 => none
  | pos, fuel + 1 =>
    let (v, pos') :
        Option Char × Nat :=
      if mode = GameMode.Visual then (none, pos)
      else (some (AUDIO_LETTERS.getD (stream pos % AUDIO_LETTERS.length) 'C'), pos + 1)
    if n ≤ i ∧ mode ≠ GameMode.Visual ∧ v = nbAud ∧ v ≠ none then
      drawAudioNonMatch mode n i nbAud stream pos' fuel
    else
      some (v, pos')

/-- One visual channel step of the generation loop: the forced-match test,
the probabilistic match decision (`forceVisualMatch || Math.random() < 0.25`,
with JS short-circuit consumption of the roll), and either the copy from the
N-back stimulus or the rejection redraw.  Returns
`(value, matchDecided, visualMatchesCreated, position)`.
`nb?` is `sequence[i - nLevel]`; when the guarded branches dereference it and
it is `undefined` (only possible when `nLevel = 0`), the JS code throws,
embedded as `none`. -/
def visualStep (stg : GameSettings) (stream : Nat → Nat) (fuel : Nat)
    (minVisualMatches remainingTrials i : Nat) (nb? : Option Stimulus)
    (vc pos : Nat) : Option (Option Nat × Bool × Nat × Nat) :=
  let n := stg.nLevel
  let mode := stg.gameMode
  let minRemainingVisual := minVisualMatches - vc
  if n ≤ i ∧ mode ≠ GameMode.Audio then
    match nb? with
    | none => none
    | some nb =>
      if remainingTrials ≤ 2 * minRemainingVisual ∧ 0 < minRemainingVisual then
        -- forced match: the roll is not consumed
        some (nb.visualPosition, true, vc + 1, pos)
      else if stream pos % 4 = 0 then
        -- probabilistic match
        some (nb.visualPosition, true, vc + 1, pos + 1)
      else
        match drawVisualNonMatch mode n i nb.visualPosition stream (pos + 1) fuel with
        | none => none
        | some (v, pos') => some (v, false, vc, pos')
  else
    -- `i < nLevel` or Audio mode: no match logic, single draw suffices
    match drawVisualNonMatch mode n i none stream pos fuel with
    | none => none
    | some (v, pos') => some (v, false, vc, pos')

/-- One audio channel step, mirroring `visualStep`. -/
def audioStep (stg : GameSettings) (stream : Nat → Nat) (fuel : Nat)
    (minAudioMatches remainingTrials i : Nat) (nb? : Option Stimulus)
    (ac pos : Nat) : Option (Option Char × Bool × Nat × Nat) :=
  let n := stg.nLevel
  let mode := stg.gameMode
  let minRemainingAudio := minAudioMatches - ac
  if n ≤ i ∧ mode ≠ GameMode.Visual then
    match nb? with
    | none => none
    | some nb =>
      if remainingTrials ≤ 2 * minRemainingAudio ∧ 0 < minRemainingAudio then
        some (nb.audioLetter, true, ac + 1, pos)
      else if stream pos % 4 = 0 then
        some (nb.audioLetter, true, ac + 1, pos + 1)
      else
        match drawAudioNonMatch mode n i nb.audioLetter stream (pos + 1) fuel with
        | none => none
        | some (v, pos') => some (v, false, ac, pos')
  else
    match drawAudioNonMatch mode n i none stream pos fuel with
    | none => none
    | some (v, pos') => some (v, false, ac, pos')

/-- The generator's output together with its per-trial match decisions and the
final `visualMatchesCreated` / `audioMatchesCreated` counters (which the JS
code logs at the end of generation). -/
structure GenTrace where
  seq : List Stimulus
  visDec : List Bool
  audDec : List Bool
  visCreated : Nat
  audCreated : Nat
deriving DecidableEq

instance : Inhabited GenTrace := ⟨⟨[], [], [], 0, 0⟩⟩

/-- The main `for` loop of `generateSequence`.  `r` counts the iterations
still to run (`numTrials - i` on every reachable call). -/
def genLoop (stg : GameSettings) (stream : Nat → Nat) (fuel numTrials minVis minAud : Nat) :
    Nat → Nat → List Stimulus → List Bool → List Bool → Nat → Nat → Nat → Option GenTrace
  | 0, _, seq, vd, ad, vc, ac, _ => some ⟨seq, vd, ad, vc, ac⟩
  | r + 1, i, seq, vd, ad, vc, ac, pos =>
    let remainingTrials := numTrials - i
    let nb? := seq.get? (i - stg.nLevel)
    match visualStep stg stream fuel minVis remainingTrials i nb? vc pos with
    | none => none
    | some (v, dv, vc', pos1) =>
      match audioStep stg stream fuel minAud remainingTrials i nb? ac pos1 with
      | none => none
      | some (a, da, ac', pos2) =>
        genLoop stg stream fuel numTrials minVis minAud r (i + 1)
          (seq ++ [⟨v, a⟩]) (vd ++ [dv]) (ad ++ [da]) vc' ac' pos2

/-- `generateSequence`, instrumented with the match-decision trace.
Returns `some ⟨[], …⟩` when the trial period is non-positive (the JS error
path returning an empty sequence), and `none` when a redraw loop runs out of
fuel (embedding a non-terminating run). -/
def generateSequenceTrace (stg : GameSettings) (stream : Nat → Nat) (fuel : Nat) :
    Option GenTrace :=
  let trialDuration := stg.stimulusDuration + stg.interStimulusInterval
  if trialDuration ≤ 0 then some ⟨[], [], [], 0, 0⟩
  else
    let numTrials := (((stg.sessionDuration : Int) * 1000).fdiv trialDuration).toNat
    let minVis := if stg.gameMode ≠ GameMode.Audio then minMatchesTarget stg.sessionDuration else 0
    let minAud := if stg.gameMode ≠ GameMode.Visual then minMatchesTarget stg.sessionDuration else 0
    genLoop stg stream fuel numTrials minVis minAud numTrials 0 [] [] [] 0 0 0

/-- `generateSequence(settings)`: the stimulus list itself. -/
def generateSequence (stg : GameSettings) (stream : Nat → Nat) (fuel : Nat) :
    Option (List Stimulus) :=
  (generateSequenceTrace stg stream fuel).map GenTrace.seq

/-- Whether index `j` of a sequence is a true visual N-back match, re-derived
from the output: `j ≥ n`, a non-null visual value, and equality with the
value `n` steps back. -/
def visMatchAt (seq : List Stimulus) (n j : Nat) : Bool :=
  decide (n ≤ j) && ((seq.getD j default).visualPosition).isSome &&
    decide ((seq.getD j default).visualPosition = (seq.getD (j - n) default).visualPosition)

/-- Whether index `j` of a sequence is a true audio N-back match. -/
def audMatchAt (seq : List Stimulus) (n j : Nat) : Bool :=
  decide (n ≤ j) && ((seq.getD j default).audioLetter).isSome &&
    decide ((seq.getD j default).audioLetter = (seq.getD (j - n) default).audioLetter)

/-- Number of true visual N-back matches re-derived from a sequence. -/
def countVisualMatches (n : Nat) (seq : List Stimulus) : Nat :=
  (List.range seq.length).countP (visMatchAt seq n)

/-- Number of true audio N-back matches re-derived from a sequence. -/
def countAudioMatches (n : Nat) (seq : List Stimulus) : Nat :=
  (List.range seq.length).countP (audMatchAt seq n)

/-! ## Scoring calculator (`calculateResults` in src) -/

/-- Per-channel metrics (`ModeResultMetrics` in src); `rate` is computed in
exact rational arithmetic. -/
structure ModeResultMetrics where
  hits : Nat
  misses : Nat
  falseAlarms : Nat
  errors : Nat
  totalMatches : Nat
  rate : ℚ
deriving DecidableEq

/-- The raw counters accumulated by the scoring loop before the derived
metrics (`errors`, `rate`) are filled in. -/
structure ModeCounters where
  hits : Nat
  misses : Nat
  falseAlarms : Nat
  totalMatches : Nat
deriving DecidableEq

structure GameResults where
  settings : GameSettings
  totalTrials : Nat
  visual : Option ModeResultMetrics
  audio : Option ModeResultMetrics
  overallSuccessRate : ℚ
deriving DecidableEq

/-- The scoring loop `for (let i = nLevel; i < numTrials; i++)`; `fuel` is
`numTrials - nLevel` iterations starting at `i = nLevel`. -/
def resultsLoop (stg : GameSettings) (seq : List Stimulus)
    (responses : List TrialResponse) :
    Nat → Nat → ModeCounters × ModeCounters → ModeCounters × ModeCounters
  | _, 0, acc => acc
  | i, fuel + 1, (v, a) =>
    let cur := seq.getD i default
    let nb := seq.getD (i - stg.nLevel) default
    let resp := (responses.get? i).getD default
    let v' :=
      if stg.gameMode ≠ GameMode.Audio ∧ cur.visualPosition ≠ none ∧ nb.visualPosition ≠ none then
        if cur.visualPosition = nb.visualPosition then
          { v with
            totalMatches := v.totalMatches + 1
            hits := v.hits + (if resp.visual = some true then 1 else 0)
            misses := v.misses + (if resp.visual = some true then 0 else 1) }
        else
          { v with falseAlarms := v.falseAlarms + (if resp.visual = some true then 1 else 0) }
      else v
    let a' :=
      if stg.gameMode ≠ GameMode.Visual ∧ cur.audioLetter ≠ none ∧ nb.audioLetter ≠ none then
        if cur.audioLetter = nb.audioLetter then
          { a with
            totalMatches := a.totalMatches + 1
            hits := a.hits + (if resp.audio = some true then 1 else 0)
            misses := a.misses + (if resp.audio = some true then 0 else 1) }
        else
          { a with falseAlarms := a.falseAlarms + (if resp.audio = some true then 1 else 0) }
      else a
    resultsLoop stg seq responses (i + 1) fuel (v', a')

/-- Fill in the derived metrics: `errors = misses + falseAlarms`, and
`rate = (totalMatches - errors) / totalMatches * 100` guarded against a zero
denominator (`100` when there are no matches and no errors, else `0`). -/
def finalizeMetrics (c : ModeCounters) : ModeResultMetrics :=
  let errors := c.misses + c.falseAlarms
  { hits := c.hits
    misses := c.misses
    falseAlarms := c.falseAlarms
    errors := errors
    totalMatches := c.totalMatches
    rate :=
      if 0 < c.totalMatches then
        ((c.totalMatches : ℚ) - (errors : ℚ)) / (c.totalMatches : ℚ) * 100
      else if errors = 0 then 100 else 0 }

/-- `calculateResults(settings, gameState)` over the stimulus sequence and the
accumulated responses. -/
def calculateResults (stg : GameSettings) (seq : List Stimulus)
    (responses : List TrialResponse) : GameResults :=
  let numTrials := seq.length
  let (v, a) :=
    resultsLoop stg seq responses stg.nLevel (numTrials - stg.nLevel)
      (⟨0, 0, 0, 0⟩, ⟨0, 0, 0, 0⟩)
  let visual := if stg.gameMode ≠ GameMode.Audio then some (finalizeMetrics v) else none
  let audio := if stg.gameMode ≠ GameMode.Visual then some (finalizeMetrics a) else none
  let totalOverallHits :=
    (if stg.gameMode ≠ GameMode.Audio then v.hits else 0) +
      (if stg.gameMode ≠ GameMode.Visual then a.hits else 0)
  let totalOverallMatches :=
    (if stg.gameMode ≠ GameMode.Audio then v.totalMatches else 0) +
      (if stg.gameMode ≠ GameMode.Visual then a.totalMatches else 0)
  { settings := stg
    totalTrials := numTrials
    visual := visual
    audio := audio
    overallSuccessRate :=
      if 0 < totalOverallMatches then
        (totalOverallHits : ℚ) / (totalOverallMatches : ℚ) * 100
      else 0 }

/-! ## Feedback helpers (`determineFeedback`, `determineMissFeedback` in src) -/

/-- `determineFeedback(isMatch, userPressedMatch)`. -/
def determineFeedback (isMatch : Bool) (userPressedMatch : Option Bool) :
    Option FeedbackType :=
  if isMatch then
    if userPressedMatch = some true then some FeedbackType.correct else none
  else
    if userPressedMatch = some true then some FeedbackType.falseAlarm else none

/-- `determineMissFeedback(isMatch, userPressedMatch)`. -/
def determineMissFeedback (isMatch : Bool) (userPressedMatch : Option Bool) :
    Option FeedbackType :=
  if isMatch ∧ userPressedMatch ≠ some true then some FeedbackType.miss else none

/-! ## Trial state machine (`gameReducer` in src) -/

inductive GameStatus
  | idle
  | settings
  | running
  | paused
  | finished
deriving DecidableEq

structure GameReducerState where
  status : GameStatus
  settings : Option GameSettings
  stimulusSequence : List Stimulus
  userResponses : List TrialResponse
  currentTrial : Int
  activeVisualStimulus : Option Nat
  activeAudioStimulus : Option Char
  feedback : FeedbackPair
  score : Int
  elapsedTime : Int
  results : Option GameResults
  showFeedbackUntil : Int
deriving DecidableEq

/-- The response channel of a `REGISTER_RESPONSE` action
(`responseType: 'visual' | 'audio'`). -/
inductive ResponseType
  | visual
  | audio
deriving DecidableEq

/-- The recorded response of the given channel. -/
def TrialResponse.onChannel (r : TrialResponse) : ResponseType → Option Bool
  | ResponseType.visual => r.visual
  | ResponseType.audio => r.audio

/-- The duplicate-response guard of `REGISTER_RESPONSE`:
`state.userResponses[idx]?.visual !== null` (resp. `.audio`), which is also
true when the slot itself is `undefined` (`undefined !== null` in JS). -/
def responseBlocked (responses : List TrialResponse) (idx : Nat)
    (responseType : ResponseType) : Bool :=
  match responses.get? idx with
  | some r => (r.onChannel responseType).isSome
  | none => true

/-- The reducer's action type.  `SHOW_FEEDBACK` and `CLEAR_FEEDBACK` read
`Date.now()` in the JS code; the corresponding constructors carry that
timestamp explicitly as `now`. -/
inductive GameAction
  | startGame (settings : GameSettings) (sequence : List Stimulus)
  | runGame
  | stopGame
  | pauseGame
  | resumeGame
  | nextTrial (currentTime : Int) (settings : GameSettings)
  | registerResponse (responseType : ResponseType) (currentTime : Int) (settings : GameSettings)
  | showFeedback (feedback : FeedbackPair) (duration : Int) (now : Int)
  | clearFeedback (now : Int)
  | updateElapsedTime (payload : Int)
  | endSession
  | clearVisualStimulus

/-- JS array indexing by a possibly negative `Int` index. -/
def listGetI {α : Type} (l : List α) (i : Int) : Option α :=
  if i < 0 then none else l.get? i.toNat

def initialState : GameReducerState :=
  { status := GameStatus.idle
    settings := none
    stimulusSequence := []
    userResponses := []
    currentTrial := -1
    activeVisualStimulus := none
    activeAudioStimulus := none
    feedback := ⟨none, none⟩
    score := 0
    elapsedTime := 0
    results := none
    showFeedbackUntil := 0 }

/-- `gameReducer(state, action)`.  `none` embeds a thrown `TypeError`
(accessing a property of `undefined`/`null`): destructuring
`state.settings!` with `settings: null` in `REGISTER_RESPONSE`, or reading a
field of an out-of-range sequence/response element in `NEXT_TRIAL` and
`REGISTER_RESPONSE`. -/
def gameReducer (state : GameReducerState) : GameAction → Option GameReducerState
  | GameAction.startGame stg sequence =>
    some { initialState with
      status := GameStatus.idle
      stimulusSequence := sequence
      userResponses := List.replicate sequence.length ⟨none, none⟩
      currentTrial := -1
      elapsedTime := 0
      score := 0
      settings := some stg }
  | GameAction.runGame =>
    if state.status = GameStatus.idle then some { state with status := GameStatus.running }
    else some state
  | GameAction.stopGame =>
    some { state with
      status := GameStatus.idle
      score := 0
      currentTrial := -1
      elapsedTime := 0
      userResponses := List.replicate state.stimulusSequence.length ⟨none, none⟩
      activeVisualStimulus := none
      activeAudioStimulus := none
      feedback := ⟨none, none⟩
      showFeedbackUntil := 0
      results := none }
  | GameAction.pauseGame =>
    if state.status = GameStatus.running then some { state with status := GameStatus.paused }
    else some state
  | GameAction.resumeGame =>
    if state.status = GameStatus.paused then some { state with status := GameStatus.running }
    else some state
  | GameAction.nextTrial currentTime stg =>
    let next := state.currentTrial + 1
    if (state.stimulusSequence.length : Int) ≤ next then
      some { state with status := GameStatus.finished }
    else
      match listGetI state.stimulusSequence next with
      | none => none
      | some currentStimulus =>
        let n := stg.nLevel
        if (n : Int) ≤ state.currentTrial then
          match state.userResponses.get? state.currentTrial.toNat with
          | none => none
          | some prevResponse =>
            let prevStimulus := state.stimulusSequence.getD state.currentTrial.toNat default
            let nBackStimulus := state.stimulusSequence.getD (state.currentTrial.toNat - n) default
            let missVis :=
              if stg.gameMode ≠ GameMode.Audio then
                determineMissFeedback
                  (decide (prevStimulus.visualPosition ≠ none ∧
                    prevStimulus.visualPosition = nBackStimulus.visualPosition))
                  prevResponse.visual
              else none
            let missAud :=
              if stg.gameMode ≠ GameMode.Visual then
                determineMissFeedback
                  (decide (prevStimulus.audioLetter ≠ none ∧
                    prevStimulus.audioLetter = nBackStimulus.audioLetter))
                  prevResponse.audio
              else none
            let scoreDelta : Int :=
              (if missVis = some FeedbackType.miss then -1 else 0) +
                (if missAud = some FeedbackType.miss then -1 else 0)
            some { state with
              score := state.score + scoreDelta
              currentTrial := next
              activeVisualStimulus := currentStimulus.visualPosition
              activeAudioStimulus := currentStimulus.audioLetter
              feedback :=
                if missVis ≠ none ∨ missAud ≠ none then ⟨missVis, missAud⟩ else ⟨none, none⟩
              showFeedbackUntil :=
                if missVis ≠ none ∨ missAud ≠ none then currentTime + FEEDBACK_DURATION_MS
                else 0 }
        else
          some { state with
            currentTrial := next
            activeVisualStimulus := currentStimulus.visualPosition
            activeAudioStimulus := currentStimulus.audioLetter
            feedback := ⟨none, none⟩
            showFeedbackUntil := 0 }
  | GameAction.registerResponse responseType currentTime _ =>
    match state.settings with
    | none => none
    | some stg =>
      let n := stg.nLevel
      let idx := state.currentTrial
      if idx < (n : Int) then some state
      else if responseBlocked state.userResponses idx.toNat responseType then
        some state
      else
        let updBase := (state.userResponses.get? idx.toNat).getD default
        if responseType = ResponseType.visual ∧ stg.gameMode ≠ GameMode.Audio then
          match listGetI state.stimulusSequence idx with
          | none => none
          | some cur =>
            if cur.visualPosition = none then
              -- `isMatch` short-circuits to false without touching the N-back element
              let upd := { updBase with visual := some true }
              some { state with
                score := state.score - 1
                userResponses := state.userResponses.set idx.toNat upd
                feedback := ⟨some FeedbackType.falseAlarm, state.feedback.audio⟩
                showFeedbackUntil := currentTime + FEEDBACK_DURATION_MS }
            else
              match listGetI state.stimulusSequence (idx - (n : Int)) with
              | none => none
              | some nb =>
                let isMatch := nb.visualPosition ≠ none ∧ cur.visualPosition = nb.visualPosition
                let upd := { updBase with visual := some true }
                let fb := if isMatch then FeedbackType.correct else FeedbackType.falseAlarm
                some { state with
                  score := state.score + (if isMatch then 1 else -1)
                  userResponses := state.userResponses.set idx.toNat upd
                  feedback := ⟨some fb, state.feedback.audio⟩
                  showFeedbackUntil := currentTime + FEEDBACK_DURATION_MS }
        else if responseType = ResponseType.audio ∧ stg.gameMode ≠ GameMode.Visual then
          match listGetI state.stimulusSequence idx with
          | none => none
          | some cur =>
            if cur.audioLetter = none then
              let upd := { updBase with audio := some true }
              some { state with
                score := state.score - 1
                userResponses := state.userResponses.set idx.toNat upd
                feedback := ⟨state.feedback.visual, some FeedbackType.falseAlarm⟩
                showFeedbackUntil := currentTime + FEEDBACK_DURATION_MS }
            else
              match listGetI state.stimulusSequence (idx - (n : Int)) with
              | none => none
              | some nb =>
                let isMatch := nb.audioLetter ≠ none ∧ cur.audioLetter = nb.audioLetter
                let upd := { updBase with audio := some true }
                let fb := if isMatch then FeedbackType.correct else FeedbackType.falseAlarm
                some { state with
                  score := state.score + (if isMatch then 1 else -1)
                  userResponses := state.userResponses.set idx.toNat upd
                  feedback := ⟨state.feedback.visual, some fb⟩
                  showFeedbackUntil := currentTime + FEEDBACK_DURATION_MS }
        else
          -- disabled channel: the response record is written back unchanged
          some { state with userResponses := state.userResponses.set idx.toNat updBase }
  | GameAction.showFeedback fb duration now =>
    some { state with feedback := fb, showFeedbackUntil := now + duration }
  | GameAction.clearFeedback now =>
    if state.showFeedbackUntil ≤ now then
      some { state with feedback := ⟨none, none⟩, showFeedbackUntil := 0 }
    else some state
  | GameAction.updateElapsedTime payload =>
    some { state with elapsedTime := payload }
  | GameAction.endSession =>
    match state.settings with
    | none => some { state with status := GameStatus.settings }
    | some stg =>
      some { state with
        status := GameStatus.finished
        results := some (calculateResults stg state.stimulusSequence state.userResponses)
        activeVisualStimulus := none
        activeAudioStimulus := none
        feedback := ⟨none, none⟩ }
  | GameAction.clearVisualStimulus =>
    some { state with activeVisualStimulus := none }

/-- The `registerResponse` event as the driver delivers it: the keydown
handler in `Game.tsx` dispatches `REGISTER_RESPONSE` only while the status is
`running` and otherwise leaves the state alone. -/
def registerResponseEvent (state : GameReducerState) (responseType : ResponseType)
    (currentTime : Int) (stg : GameSettings) : Option GameReducerState :=
  if state.status = GameStatus.running then
    gameReducer state (GameAction.registerResponse responseType currentTime stg)
  else some state

/-! ## Channel-indexed views used to state the claims -/

/-- Whether the game mode enables the channel (`Audio` mode disables the
visual channel, `Visual` mode the audio channel). -/
def channelEnabled (responseType : ResponseType) (mode : GameMode) : Prop :=
  match responseType with
  | ResponseType.visual => mode ≠ GameMode.Audio
  | ResponseType.audio => mode ≠ GameMode.Visual

instance (responseType : ResponseType) (mode : GameMode) :
    Decidable (channelEnabled responseType mode) := by
  cases responseType <;> simp [channelEnabled] <;> infer_instance

/-- The true-N-back-match test the reducer performs for a pressed channel:
both the current and the N-back value are non-null and equal. -/
def stimMatchOn (responseType : ResponseType) (cur nb : Stimulus) : Prop :=
  match responseType with
  | ResponseType.visual =>
    cur.visualPosition ≠ none ∧ nb.visualPosition ≠ none ∧
      cur.visualPosition = nb.visualPosition
  | ResponseType.audio =>
    cur.audioLetter ≠ none ∧ nb.audioLetter ≠ none ∧
      cur.audioLetter = nb.audioLetter

instance (responseType : ResponseType) (cur nb : Stimulus) :
    Decidable (stimMatchOn responseType cur nb) := by
  cases responseType <;> simp [stimMatchOn] <;> infer_instance

/-- The feedback slot of the given channel. -/
def feedbackOn (f : FeedbackPair) : ResponseType → Option FeedbackType
  | ResponseType.visual => f.visual
  | ResponseType.audio => f.audio

/-- The miss condition `advanceTrial` resolves for the trial that is N steps
in the past: the channel is enabled, the N-back comparison at that trial was
a true match, and the recorded response was not pressed. -/
def missCondition (stg : GameSettings) (prevStim nbStim : Stimulus)
    (prevResp : TrialResponse) : ResponseType → Prop
  | ResponseType.visual =>
    stg.gameMode ≠ GameMode.Audio ∧ prevStim.visualPosition ≠ none ∧
      prevStim.visualPosition = nbStim.visualPosition ∧ prevResp.visual ≠ some true
  | ResponseType.audio =>
    stg.gameMode ≠ GameMode.Visual ∧ prevStim.audioLetter ≠ none ∧
      prevStim.audioLetter = nbStim.audioLetter ∧ prevResp.audio ≠ some true

instance (stg : GameSettings) (prevStim nbStim : Stimulus) (prevResp : TrialResponse)
    (responseType : ResponseType) :
    Decidable (missCondition stg prevStim nbStim prevResp responseType) := by
  cases responseType <;> simp [missCondition] <;> infer_instance

/-! ## Concrete inputs used by the witness theorems -/

/-- A simple concrete random stream. -/
def idStream : Nat → Nat := fun n => n

/-- The sequence generated at the default settings from `idStream`. -/
def c5WitnessSeq : List Stimulus :=
  (generateSequence DEFAULT_SETTINGS idStream 9).getD []

/-- Claim C1's session settings: default timing (1500 ms + 2500 ms), 120 s,
N = 2, with a variable game mode. -/
def c1Settings (mode : GameMode) : GameSettings :=
  { DEFAULT_SETTINGS with gameMode := mode }

/-- The generation trace at the default dual-mode settings from `idStream`. -/
def c1WitnessTrace : GenTrace :=
  (generateSequenceTrace (c1Settings GameMode.Dual) idStream 9).getD default

/-- Small session settings exercised by the C9 witness. -/
def c9Settings : GameSettings :=
  { gameMode := GameMode.Dual, nLevel := 1, stimulusDuration := 500,
    interStimulusInterval := 500, sessionDuration := 10,
    visualMatchKey := "a", audioMatchKey := "l" }

/-- The generation trace at `c9Settings` from `idStream`. -/
def c9WitnessTrace : GenTrace :=
  (generateSequenceTrace c9Settings idStream 9).getD default

/-- Small dual-mode session settings used by the reducer witnesses. -/
def demoSettings : GameSettings :=
  { gameMode := GameMode.Dual, nLevel := 1, stimulusDuration := 500,
    interStimulusInterval := 500, sessionDuration := 4,
    visualMatchKey := "a", audioMatchKey := "l" }

/-- A three-trial dual-mode sequence with matches at index 1 (vs index 0). -/
def demoSeq : List Stimulus :=
  [⟨some 0, some 'C'⟩, ⟨some 0, some 'C'⟩, ⟨some 1, some 'H'⟩]

/-- A mid-session running state at trial 1 of `demoSeq`. -/
def demoRunningState : GameReducerState :=
  { status := GameStatus.running
    settings := some demoSettings
    stimulusSequence := demoSeq
    userResponses := List.replicate 3 ⟨none, none⟩
    currentTrial := 1
    activeVisualStimulus := some 0
    activeAudioStimulus := some 'C'
    feedback := ⟨none, none⟩
    score := 0
    elapsedTime := 1
    results := none
    showFeedbackUntil := 0 }

/-- `demoSettings` with the visual channel disabled (Audio mode). -/
def audioModeSettings : GameSettings :=
  { demoSettings with gameMode := GameMode.Audio }

/-! ## Generator length lemma and claim C5 -/

theorem genLoop_length (stg : GameSettings) (stream : Nat → Nat) (fuel nT mV mA : Nat) :
    ∀ (r : Nat) (i : Nat) (seq : List Stimulus) (vd ad : List Bool) (vc ac pos : Nat)
      (tr : GenTrace),
      genLoop stg stream fuel nT mV mA r i seq vd ad vc ac pos = some tr →
      tr.seq.length = seq.length + r := by
  intro r
  induction r with
  | zero =>
    intro i seq vd ad vc ac pos tr h
    simp only [genLoop, Option.some.injEq] at h
    cases h
    simp
  | succ r ih =>
    intro i seq vd ad vc ac pos tr h
    simp only [genLoop] at h
    cases hv : visualStep stg stream fuel mV (nT - i) i (seq.get? (i - stg.nLevel)) vc pos with
    | none => rw [hv] at h; simp at h
    | some res =>
      obtain ⟨v, dv, vc', pos1⟩ := res
      rw [hv] at h
      simp only at h
      cases ha : audioStep stg stream fuel mA (nT - i) i (seq.get? (i - stg.nLevel)) ac pos1 with
      | none => rw [ha] at h; simp at h
      | some res2 =>
        obtain ⟨a, da, ac', pos2⟩ := res2
        rw [ha] at h
        simp only at h
        have := ih (i + 1) (seq ++ [⟨v, a⟩]) (vd ++ [dv]) (ad ++ [da]) vc' ac' pos2 tr h
        simp only [List.length_append, List.length_singleton] at this
        omega

/-- Claim C5: for every settings, a terminating run of `generateSequence` returns
the empty sequence when the trial period `stimulusDuration +
interStimulusInterval` is non-positive, and otherwise exactly
`⌊sessionDuration·1000 / trialPeriod⌋` elements. -/
theorem generateSequence_length (stg : GameSettings) (stream : Nat → Nat) (fuel : Nat)
    (s : List Stimulus) (h : generateSequence stg stream fuel = some s) :
    (stg.stimulusDuration + stg.interStimulusInterval ≤ 0 → s = []) ∧
      (0 < stg.stimulusDuration + stg.interStimulusInterval →
        (s.length : Int) =
          ((stg.sessionDuration : Int) * 1000).fdiv
            (stg.stimulusDuration + stg.interStimulusInterval)) := by
  unfold generateSequence generateSequenceTrace at h
  by_cases htd : stg.stimulusDuration + stg.interStimulusInterval ≤ 0
  · rw [if_pos htd] at h
    simp only [Option.map_some', Option.some.injEq] at h
    constructor
    · intro; exact h.symm
    · intro hpos; omega
  · rw [if_neg htd] at h
    simp only [Option.map_eq_some'] at h
    obtain ⟨tr, htr, hseq⟩ := h
    have hlen := genLoop_length _ _ _ _ _ _ _ _ _ _ _ _ _ _ _ htr
    constructor
    · intro hle; omega
    · intro _
      subst hseq
      rw [hlen]
      simp only [List.length_nil, Nat.zero_add]
      have hnn : (0 : Int) ≤ ((stg.sessionDuration : Int) * 1000).fdiv
          (stg.stimulusDuration + stg.interStimulusInterval) := by
        apply Int.fdiv_nonneg
        · positivity
        · omega
      omega

/-- Witness for C5 at the default settings and the stream `idStream`. -/
theorem generateSequence_length_witness :
    (DEFAULT_SETTINGS.stimulusDuration + DEFAULT_SETTINGS.interStimulusInterval ≤ 0 →
        c5WitnessSeq = []) ∧
      (0 < DEFAULT_SETTINGS.stimulusDuration + DEFAULT_SETTINGS.interStimulusInterval →
        (c5WitnessSeq.length : Int) =
          ((DEFAULT_SETTINGS.sessionDuration : Int) * 1000).fdiv
            (DEFAULT_SETTINGS.stimulusDuration + DEFAULT_SETTINGS.interStimulusInterval)) :=
  generateSequence_length DEFAULT_SETTINGS idStream 9 c5WitnessSeq (by rfl)

/-! ## Claim C7: scoring with N-level at or above the sequence length -/

/-- Claim C7: when the N-level is at least the sequence length, the scoring
loop never runs, so every enabled channel reports all-zero counters with a
rate of 100, and the overall success rate is 0 (no division is attempted). -/
theorem calculateResults_nLevel_ge_length (stg : GameSettings) (seq : List Stimulus)
    (responses : List TrialResponse) (h : seq.length ≤ stg.nLevel) :
    (stg.gameMode ≠ GameMode.Audio →
        (calculateResults stg seq responses).visual =
          some ⟨0, 0, 0, 0, 0, 100⟩) ∧
      (stg.gameMode ≠ GameMode.Visual →
        (calculateResults stg seq responses).audio =
          some ⟨0, 0, 0, 0, 0, 100⟩) ∧
      (calculateResults stg seq responses).overallSuccessRate = 0 := by
  have h0 : seq.length - stg.nLevel = 0 := Nat.sub_eq_zero_of_le h
  refine ⟨fun hv => ?_, fun ha => ?_, ?_⟩ <;>
    simp [calculateResults, h0, resultsLoop, finalizeMetrics, *]

/-- Witness for C7: a three-element sequence scored at N-level 5. -/
theorem calculateResults_nLevel_ge_length_witness :
    ({ demoSettings with nLevel := 5 }.gameMode ≠ GameMode.Audio →
        (calculateResults { demoSettings with nLevel := 5 } demoSeq
            (List.replicate 3 ⟨none, none⟩)).visual =
          some ⟨0, 0, 0, 0, 0, 100⟩) ∧
      ({ demoSettings with nLevel := 5 }.gameMode ≠ GameMode.Visual →
        (calculateResults { demoSettings with nLevel := 5 } demoSeq
            (List.replicate 3 ⟨none, none⟩)).audio =
          some ⟨0, 0, 0, 0, 0, 100⟩) ∧
      (calculateResults { demoSettings with nLevel := 5 } demoSeq
          (List.replicate 3 ⟨none, none⟩)).overallSuccessRate = 0 :=
  calculateResults_nLevel_ge_length { demoSettings with nLevel := 5 } demoSeq
    (List.replicate 3 ⟨none, none⟩) (by decide)

/-! ## Claim C8: STOP_GAME resets the session -/

/-- Claim C8: from every state, `STOP_GAME` yields status `idle` with score 0,
trial index −1, elapsed time 0, a fresh unanswered response slot per sequence
element, no active stimuli, cleared feedback with expiry 0, and no results
(settings and the stimulus sequence are the only fields carried over). -/
theorem stopGame_resets (state : GameReducerState) :
    gameReducer state GameAction.stopGame =
      some { state with
        status := GameStatus.idle
        score := 0
        currentTrial := -1
        elapsedTime := 0
        userResponses := List.replicate state.stimulusSequence.length ⟨none, none⟩
        activeVisualStimulus := none
        activeAudioStimulus := none
        feedback := ⟨none, none⟩
        showFeedbackUntil := 0
        results := none } := rfl

/-! ## Claim C6: NEXT_TRIAL past the end of the sequence -/

/-- Claim C6: while `running`, a `NEXT_TRIAL` whose next index reaches the
sequence length only flips the status to `finished`; every other field —
including `results`, which stays whatever it was — is untouched. -/
theorem nextTrial_past_end (state : GameReducerState) (t : Int) (stg : GameSettings)
    (hrun : state.status = GameStatus.running)
    (hend : (state.stimulusSequence.length : Int) ≤ state.currentTrial + 1) :
    gameReducer state (GameAction.nextTrial t stg) =
      some { state with status := GameStatus.finished } := by
  simp [gameReducer, hend]

/-- Witness for C6 at a concrete exhausted session. -/
theorem nextTrial_past_end_witness :
    gameReducer { demoRunningState with currentTrial := 2 }
        (GameAction.nextTrial 7 demoSettings) =
      some { { demoRunningState with currentTrial := 2 } with
        status := GameStatus.finished } :=
  nextTrial_past_end { demoRunningState with currentTrial := 2 } 7 demoSettings
    (by decide) (by decide)

/-! ## Claim C10: REGISTER_RESPONSE on a channel the game mode disables -/

/-- Claim C10: a `registerResponse` for a channel the game mode disables
(visual in Audio mode, audio in Visual mode), at a trial index ≥ N with no
response recorded on that channel, changes neither score, feedback, nor the
feedback expiry, and the channel stays unanswered. -/
theorem registerResponse_disabled_channel (state : GameReducerState)
    (stg : GameSettings) (responseType : ResponseType) (t : Int)
    (actionStg : GameSettings)
    (hset : state.settings = some stg)
    (hdis : ¬ channelEnabled responseType stg.gameMode)
    (hn : (stg.nLevel : Int) ≤ state.currentTrial)
    (hfree : ∀ r, state.userResponses.get? state.currentTrial.toNat = some r →
      r.onChannel responseType = none) :
    ∃ s', registerResponseEvent state responseType t actionStg = some s' ∧
      s'.score = state.score ∧
      s'.feedback = state.feedback ∧
      s'.showFeedbackUntil = state.showFeedbackUntil ∧
      ∀ r', s'.userResponses.get? state.currentTrial.toNat = some r' →
        r'.onChannel responseType = none := by
  unfold registerResponseEvent
  by_cases hrun : state.status = GameStatus.running
  · rw [if_pos hrun]
    simp only [gameReducer, hset]
    rw [if_neg (by omega)]
    cases hslot : state.userResponses.get? state.currentTrial.toNat with
    | none =>
      have hblocked : responseBlocked state.userResponses state.currentTrial.toNat
          responseType = true := by
        unfold responseBlocked; rw [hslot]
      rw [if_pos hblocked]
      exact ⟨state, rfl, rfl, rfl, rfl, fun r' hr' => hfree r' hr'⟩
    | some r =>
      have hnone : r.onChannel responseType = none := hfree r hslot
      have hblocked : responseBlocked state.userResponses state.currentTrial.toNat
          responseType = false := by
        unfold responseBlocked; rw [hslot]
        show (r.onChannel responseType).isSome = false
        rw [hnone]; rfl
      rw [hblocked]
      simp only [Bool.false_eq_true, if_false]
      have hlt : state.currentTrial.toNat < state.userResponses.length := by
        rcases List.get?_eq_some.mp hslot with ⟨h, _⟩
        exact h
      cases responseType with
      | visual =>
        have hmode : stg.gameMode = GameMode.Audio := by
          simpa [channelEnabled] using hdis
        rw [if_neg (by simp [hmode])]
        rw [if_neg (by simp)]
        refine ⟨_, rfl, rfl, rfl, rfl, fun r' hr' => ?_⟩
        dsimp only at hr'
        rw [Option.getD_some, List.get?_set_eq_of_lt _ hlt] at hr'
        cases hr'
        exact hnone
      | audio =>
        have hmode : stg.gameMode = GameMode.Visual := by
          simpa [channelEnabled] using hdis
        rw [if_neg (by simp)]
        rw [if_neg (by simp [hmode])]
        refine ⟨_, rfl, rfl, rfl, rfl, fun r' hr' => ?_⟩
        dsimp only at hr'
        rw [Option.getD_some, List.get?_set_eq_of_lt _ hlt] at hr'
        cases hr'
        exact hnone
  · rw [if_neg hrun]
    exact ⟨state, rfl, rfl, rfl, rfl, fun r' hr' => hfree r' hr'⟩

/-- Witness for C10: a visual press in Audio mode at trial 1. -/
theorem registerResponse_disabled_channel_witness :
    ∃ s', registerResponseEvent
        { demoRunningState with settings := some audioModeSettings }
        ResponseType.visual 9 demoSettings = some s' ∧
      s'.score = { demoRunningState with settings := some audioModeSettings }.score ∧
      s'.feedback = { demoRunningState with settings := some audioModeSettings }.feedback ∧
      s'.showFeedbackUntil =
        { demoRunningState with settings := some audioModeSettings }.showFeedbackUntil ∧
      ∀ r', s'.userResponses.get?
          { demoRunningState with settings := some audioModeSettings }.currentTrial.toNat =
            some r' →
        r'.onChannel ResponseType.visual = none :=
  registerResponse_disabled_channel
    { demoRunningState with settings := some audioModeSettings }
    audioModeSettings ResponseType.visual 9 demoSettings rfl (by decide) (by decide)
    (by
      intro r hr
      rw [show ({ demoRunningState with settings := some audioModeSettings } :
          GameReducerState).userResponses.get?
          ({ demoRunningState with settings := some audioModeSettings } :
            GameReducerState).currentTrial.toNat = some ⟨none, none⟩ from rfl] at hr
      cases hr
      rfl)

/-! ## Claim C3: an accepted REGISTER_RESPONSE -/

/-- Claim C3: when a response is accepted (running, trial index ≥ N, enabled
channel, no recorded response on that channel), the channel is recorded as
pressed regardless of outcome; a true N-back match yields `correct` feedback
and +1 score, anything else yields `false-alarm` and −1, and the feedback is
shown until `currentTime + FEEDBACK_DURATION_MS`. -/
theorem registerResponse_accepted (state : GameReducerState) (stg : GameSettings)
    (responseType : ResponseType) (t : Int) (actionStg : GameSettings)
    (r : TrialResponse) (cur nb : Stimulus)
    (hset : state.settings = some stg)
    (hrun : state.status = GameStatus.running)
    (hn : (stg.nLevel : Int) ≤ state.currentTrial)
    (hen : channelEnabled responseType stg.gameMode)
    (hslot : state.userResponses.get? state.currentTrial.toNat = some r)
    (hfree : r.onChannel responseType = none)
    (hcur : listGetI state.stimulusSequence state.currentTrial = some cur)
    (hnb : listGetI state.stimulusSequence
      (state.currentTrial - (stg.nLevel : Int)) = some nb) :
    ∃ s', registerResponseEvent state responseType t actionStg = some s' ∧
      (∃ r', s'.userResponses.get? state.currentTrial.toNat = some r' ∧
        r'.onChannel responseType = some true) ∧
      (stimMatchOn responseType cur nb →
        feedbackOn s'.feedback responseType = some FeedbackType.correct ∧
          s'.score = state.score + 1) ∧
      (¬ stimMatchOn responseType cur nb →
        feedbackOn s'.feedback responseType = some FeedbackType.falseAlarm ∧
          s'.score = state.score - 1) ∧
      s'.showFeedbackUntil = t + FEEDBACK_DURATION_MS := by
  obtain ⟨hlt, -⟩ := List.get?_eq_some.mp hslot
  unfold registerResponseEvent
  rw [if_pos hrun]
  simp only [gameReducer, hset]
  rw [if_neg (by omega)]
  have hblocked : responseBlocked state.userResponses state.currentTrial.toNat
      responseType = false := by
    unfold responseBlocked; rw [hslot]
    show (r.onChannel responseType).isSome = false
    rw [hfree]; rfl
  rw [hblocked]
  simp only [Bool.false_eq_true, if_false]
  cases responseType with
  | visual =>
    have hmode : stg.gameMode ≠ GameMode.Audio := hen
    rw [if_pos ⟨rfl, hmode⟩, hcur]
    dsimp only
    by_cases hv : cur.visualPosition = none
    · rw [if_pos hv]
      refine ⟨_, rfl, ⟨⟨some true, r.audio⟩, ?_, rfl⟩,
        fun hm => absurd hv hm.1, fun _ => ⟨rfl, rfl⟩, rfl⟩
      dsimp only
      rw [hslot, Option.getD_some, List.get?_set_eq_of_lt _ hlt]
    · rw [if_neg hv, hnb]
      dsimp only
      refine ⟨_, rfl, ⟨⟨some true, r.audio⟩, ?_, rfl⟩, fun hm => ?_, fun hnm => ?_, rfl⟩
      · dsimp only
        rw [hslot, Option.getD_some, List.get?_set_eq_of_lt _ hlt]
      · have hmatch : nb.visualPosition ≠ none ∧ cur.visualPosition = nb.visualPosition :=
          ⟨hm.2.1, hm.2.2⟩
        constructor
        · dsimp only [feedbackOn]
          rw [if_pos hmatch]
        · dsimp only
          rw [if_pos hmatch]
      · have hmatch : ¬ (nb.visualPosition ≠ none ∧ cur.visualPosition = nb.visualPosition) :=
          fun hc => hnm ⟨hv, hc.1, hc.2⟩
        constructor
        · dsimp only [feedbackOn]
          rw [if_neg hmatch]
        · dsimp only
          rw [if_neg hmatch]
          omega
  | audio =>
    have hmode : stg.gameMode ≠ GameMode.Visual := hen
    rw [if_neg (by simp), if_pos ⟨rfl, hmode⟩, hcur]
    dsimp only
    by_cases hv : cur.audioLetter = none
    · rw [if_pos hv]
      refine ⟨_, rfl, ⟨⟨r.visual, some true⟩, ?_, rfl⟩,
        fun hm => absurd hv hm.1, fun _ => ⟨rfl, rfl⟩, rfl⟩
      dsimp only
      rw [hslot, Option.getD_some, List.get?_set_eq_of_lt _ hlt]
    · rw [if_neg hv, hnb]
      dsimp only
      refine ⟨_, rfl, ⟨⟨r.visual, some true⟩, ?_, rfl⟩, fun hm => ?_, fun hnm => ?_, rfl⟩
      · dsimp only
        rw [hslot, Option.getD_some, List.get?_set_eq_of_lt _ hlt]
      · have hmatch : nb.audioLetter ≠ none ∧ cur.audioLetter = nb.audioLetter :=
          ⟨hm.2.1, hm.2.2⟩
        constructor
        · dsimp only [feedbackOn]
          rw [if_pos hmatch]
        · dsimp only
          rw [if_pos hmatch]
      · have hmatch : ¬ (nb.audioLetter ≠ none ∧ cur.audioLetter = nb.audioLetter) :=
          fun hc => hnm ⟨hv, hc.1, hc.2⟩
        constructor
        · dsimp only [feedbackOn]
          rw [if_neg hmatch]
        · dsimp only
          rw [if_neg hmatch]
          omega

/-- Witness for C3: a visual press at trial 1 of `demoSeq` (a true match). -/
theorem registerResponse_accepted_witness :
    ∃ s', registerResponseEvent demoRunningState ResponseType.visual 42 demoSettings =
        some s' ∧
      (∃ r', s'.userResponses.get? demoRunningState.currentTrial.toNat = some r' ∧
        r'.onChannel ResponseType.visual = some true) ∧
      (stimMatchOn ResponseType.visual ⟨some 0, some 'C'⟩ ⟨some 0, some 'C'⟩ →
        feedbackOn s'.feedback ResponseType.visual = some FeedbackType.correct ∧
          s'.score = demoRunningState.score + 1) ∧
      (¬ stimMatchOn ResponseType.visual ⟨some 0, some 'C'⟩ ⟨some 0, some 'C'⟩ →
        feedbackOn s'.feedback ResponseType.visual = some FeedbackType.falseAlarm ∧
          s'.score = demoRunningState.score - 1) ∧
      s'.showFeedbackUntil = 42 + FEEDBACK_DURATION_MS :=
  registerResponse_accepted demoRunningState demoSettings ResponseType.visual 42
    demoSettings ⟨none, none⟩ ⟨some 0, some 'C'⟩ ⟨some 0, some 'C'⟩
    rfl rfl (by decide) (by decide) (by rfl) rfl (by rfl) (by rfl)

/-! ## Claim C4: rejected REGISTER_RESPONSE events -/

/-- Counterexample to C4 as stated: in a state with status `running` but no
settings (reachable in the reducer via `RUN_GAME` from the initial state),
the trial-index precondition fails, yet the event is not silently ignored —
`REGISTER_RESPONSE` destructures `state.settings!` and throws. -/
theorem registerResponse_null_settings_throws :
    registerResponseEvent { initialState with status := GameStatus.running }
      ResponseType.visual 0 DEFAULT_SETTINGS = none := rfl

/-- Claim C4 (amended): provided the session's settings are present, a
`registerResponse` whose preconditions fail — not `running`, trial index
still below N, or the channel already answered (or its slot missing) for the
current trial — leaves the state entirely unchanged. -/
theorem registerResponse_precondition_failure (state : GameReducerState)
    (stg : GameSettings) (responseType : ResponseType) (t : Int)
    (actionStg : GameSettings)
    (hset : state.settings = some stg)
    (hfail : state.status ≠ GameStatus.running ∨
      state.currentTrial < (stg.nLevel : Int) ∨
      responseBlocked state.userResponses state.currentTrial.toNat responseType = true) :
    registerResponseEvent state responseType t actionStg = some state := by
  unfold registerResponseEvent
  by_cases hrun : state.status = GameStatus.running
  · rw [if_pos hrun]
    simp only [gameReducer, hset]
    rcases hfail with hfail | hfail | hfail
    · exact absurd hrun hfail
    · rw [if_pos hfail]
    · by_cases hidx : state.currentTrial < (stg.nLevel : Int)
      · rw [if_pos hidx]
      · rw [if_neg hidx, if_pos hfail]
  · rw [if_neg hrun]

/-- Witness for the amended C4: a duplicate visual press at trial 1 (the
visual channel is already answered) is ignored. -/
theorem registerResponse_precondition_failure_witness :
    registerResponseEvent
      { demoRunningState with
        userResponses := [⟨none, none⟩, ⟨some true, none⟩, ⟨none, none⟩] }
      ResponseType.visual 5 demoSettings =
      some { demoRunningState with
        userResponses := [⟨none, none⟩, ⟨some true, none⟩, ⟨none, none⟩] } :=
  registerResponse_precondition_failure
    { demoRunningState with
      userResponses := [⟨none, none⟩, ⟨some true, none⟩, ⟨none, none⟩] }
    demoSettings ResponseType.visual 5 demoSettings rfl (Or.inr (Or.inr (by rfl)))

/-! ## Claim C2: NEXT_TRIAL resolves miss feedback and advances -/

theorem get?_eq_some_getD {α : Type} [Inhabited α] (l : List α) (n : Nat)
    (h : n < l.length) : l.get? n = some (l.getD n default) := by
  cases hx : l.get? n with
  | none => exact absurd (List.get?_eq_none.mp hx) (by omega)
  | some x => rw [List.getD_eq_get?, hx]; rfl

/-- Claim C2: while running with settings present, a `NEXT_TRIAL` whose next
index is still inside the sequence resolves miss feedback for the trial at
`currentTrial` (once `currentTrial ≥ N`): each enabled channel whose N-back
comparison was a true match without a pressed response gets `miss` feedback
and −1 score; then the stimulus at the next index becomes the active
visual/audio stimulus, the trial index advances, and any produced miss
feedback is shown until `currentTime + FEEDBACK_DURATION_MS`. -/
theorem nextTrial_resolves_misses (state : GameReducerState) (stg : GameSettings)
    (t : Int) (prevResp : TrialResponse)
    (hset : state.settings = some stg)
    (hrun : state.status = GameStatus.running)
    (hn : (stg.nLevel : Int) ≤ state.currentTrial)
    (hnext : state.currentTrial + 1 < (state.stimulusSequence.length : Int))
    (hslot : state.userResponses.get? state.currentTrial.toNat = some prevResp) :
    ∃ s', gameReducer state (GameAction.nextTrial t stg) = some s' ∧
      s'.currentTrial = state.currentTrial + 1 ∧
      s'.activeVisualStimulus =
        (state.stimulusSequence.getD (state.currentTrial + 1).toNat default).visualPosition ∧
      s'.activeAudioStimulus =
        (state.stimulusSequence.getD (state.currentTrial + 1).toNat default).audioLetter ∧
      (missCondition stg (state.stimulusSequence.getD state.currentTrial.toNat default)
          (state.stimulusSequence.getD (state.currentTrial.toNat - stg.nLevel) default)
          prevResp ResponseType.visual →
        s'.feedback.visual = some FeedbackType.miss) ∧
      (missCondition stg (state.stimulusSequence.getD state.currentTrial.toNat default)
          (state.stimulusSequence.getD (state.currentTrial.toNat - stg.nLevel) default)
          prevResp ResponseType.audio →
        s'.feedback.audio = some FeedbackType.miss) ∧
      s'.score = state.score -
        (if missCondition stg (state.stimulusSequence.getD state.currentTrial.toNat default)
            (state.stimulusSequence.getD (state.currentTrial.toNat - stg.nLevel) default)
            prevResp ResponseType.visual then 1 else 0) -
        (if missCondition stg (state.stimulusSequence.getD state.currentTrial.toNat default)
            (state.stimulusSequence.getD (state.currentTrial.toNat - stg.nLevel) default)
            prevResp ResponseType.audio then 1 else 0) ∧
      ((missCondition stg (state.stimulusSequence.getD state.currentTrial.toNat default)
          (state.stimulusSequence.getD (state.currentTrial.toNat - stg.nLevel) default)
          prevResp ResponseType.visual ∨
        missCondition stg (state.stimulusSequence.getD state.currentTrial.toNat default)
          (state.stimulusSequence.getD (state.currentTrial.toNat - stg.nLevel) default)
          prevResp ResponseType.audio) →
        s'.showFeedbackUntil = t + FEEDBACK_DURATION_MS) := by
  have hmv :
      (if stg.gameMode ≠ GameMode.Audio then
        determineMissFeedback
          (decide ((state.stimulusSequence.getD state.currentTrial.toNat default).visualPosition ≠ none ∧
            (state.stimulusSequence.getD state.currentTrial.toNat default).visualPosition =
              (state.stimulusSequence.getD (state.currentTrial.toNat - stg.nLevel) default).visualPosition))
          prevResp.visual
      else none) =
      (if missCondition stg (state.stimulusSequence.getD state.currentTrial.toNat default)
          (state.stimulusSequence.getD (state.currentTrial.toNat - stg.nLevel) default)
          prevResp ResponseType.visual then some FeedbackType.miss else none) := by
    by_cases hMV : missCondition stg (state.stimulusSequence.getD state.currentTrial.toNat default)
        (state.stimulusSequence.getD (state.currentTrial.toNat - stg.nLevel) default)
        prevResp ResponseType.visual
    · have hMV' := hMV
      simp only [missCondition] at hMV'
      obtain ⟨h1, h2, h3, h4⟩ := hMV'
      rw [if_pos hMV, if_pos h1]
      unfold determineMissFeedback
      exact if_pos ⟨decide_eq_true ⟨h2, h3⟩, h4⟩
    · rw [if_neg hMV]
      by_cases h1 : stg.gameMode = GameMode.Audio
      · rw [if_neg (by simp [h1])]
      · rw [if_pos h1]
        unfold determineMissFeedback
        refine if_neg fun hc => hMV ?_
        have hp := of_decide_eq_true hc.1
        simp only [missCondition]
        exact ⟨h1, hp.1, hp.2, hc.2⟩
  have hma :
      (if stg.gameMode ≠ GameMode.Visual then
        determineMissFeedback
          (decide ((state.stimulusSequence.getD state.currentTrial.toNat default).audioLetter ≠ none ∧
            (state.stimulusSequence.getD state.currentTrial.toNat default).audioLetter =
              (state.stimulusSequence.getD (state.currentTrial.toNat - stg.nLevel) default).audioLetter))
          prevResp.audio
      else none) =
      (if missCondition stg (state.stimulusSequence.getD state.currentTrial.toNat default)
          (state.stimulusSequence.getD (state.currentTrial.toNat - stg.nLevel) default)
          prevResp ResponseType.audio then some FeedbackType.miss else none) := by
    by_cases hMA : missCondition stg (state.stimulusSequence.getD state.currentTrial.toNat default)
        (state.stimulusSequence.getD (state.currentTrial.toNat - stg.nLevel) default)
        prevResp ResponseType.audio
    · have hMA' := hMA
      simp only [missCondition] at hMA'
      obtain ⟨h1, h2, h3, h4⟩ := hMA'
      rw [if_pos hMA, if_pos h1]
      unfold determineMissFeedback
      exact if_pos ⟨decide_eq_true ⟨h2, h3⟩, h4⟩
    · rw [if_neg hMA]
      by_cases h1 : stg.gameMode = GameMode.Visual
      · rw [if_neg (by simp [h1])]
      · rw [if_pos h1]
        unfold determineMissFeedback
        refine if_neg fun hc => hMA ?_
        have hp := of_decide_eq_true hc.1
        simp only [missCondition]
        exact ⟨h1, hp.1, hp.2, hc.2⟩
  have hnlt : (state.currentTrial + 1).toNat < state.stimulusSequence.length := by omega
  have hgetNext : listGetI state.stimulusSequence (state.currentTrial + 1) =
      some (state.stimulusSequence.getD (state.currentTrial + 1).toNat default) := by
    unfold listGetI
    rw [if_neg (by omega)]
    exact get?_eq_some_getD _ _ hnlt
  simp only [gameReducer]
  rw [if_neg (by omega), hgetNext]
  dsimp only
  rw [if_pos hn, hslot]
  dsimp only
  rw [hmv, hma]
  by_cases hMV : missCondition stg (state.stimulusSequence.getD state.currentTrial.toNat default)
      (state.stimulusSequence.getD (state.currentTrial.toNat - stg.nLevel) default)
      prevResp ResponseType.visual <;>
    by_cases hMA : missCondition stg (state.stimulusSequence.getD state.currentTrial.toNat default)
      (state.stimulusSequence.getD (state.currentTrial.toNat - stg.nLevel) default)
      prevResp ResponseType.audio
  · refine ⟨_, rfl, rfl, rfl, rfl, fun _ => ?_, fun _ => ?_, ?_, fun _ => ?_⟩ <;>
      simp only [List.getD_eq_getElem?_getD] at hMV hMA ⊢ <;> simp [hMV, hMA] <;> try omega
  · refine ⟨_, rfl, rfl, rfl, rfl, fun _ => ?_, fun hc => absurd hc hMA, ?_, fun _ => ?_⟩ <;>
      simp only [List.getD_eq_getElem?_getD] at hMV hMA ⊢ <;> simp [hMV, hMA] <;> try omega
  · refine ⟨_, rfl, rfl, rfl, rfl, fun hc => absurd hc hMV, fun _ => ?_, ?_, fun _ => ?_⟩ <;>
      simp only [List.getD_eq_getElem?_getD] at hMV hMA ⊢ <;> simp [hMV, hMA] <;> try omega
  · refine ⟨_, rfl, rfl, rfl, rfl, fun hc => absurd hc hMV, fun hc => absurd hc hMA, ?_,
      fun hc => hc.elim (fun h => absurd h hMV) (fun h => absurd h hMA)⟩
    simp only [List.getD_eq_getElem?_getD] at hMV hMA ⊢
    simp [hMV, hMA]

/-- Witness for C2: advancing past trial 1 of `demoSeq` with no responses
recorded turns both channels into misses. -/
theorem nextTrial_resolves_misses_witness :
    ∃ s', gameReducer demoRunningState (GameAction.nextTrial 100 demoSettings) = some s' ∧
      s'.currentTrial = demoRunningState.currentTrial + 1 ∧
      s'.activeVisualStimulus =
        (demoRunningState.stimulusSequence.getD
          (demoRunningState.currentTrial + 1).toNat default).visualPosition ∧
      s'.activeAudioStimulus =
        (demoRunningState.stimulusSequence.getD
          (demoRunningState.currentTrial + 1).toNat default).audioLetter ∧
      (missCondition demoSettings
          (demoRunningState.stimulusSequence.getD demoRunningState.currentTrial.toNat default)
          (demoRunningState.stimulusSequence.getD
            (demoRunningState.currentTrial.toNat - demoSettings.nLevel) default)
          ⟨none, none⟩ ResponseType.visual →
        s'.feedback.visual = some FeedbackType.miss) ∧
      (missCondition demoSettings
          (demoRunningState.stimulusSequence.getD demoRunningState.currentTrial.toNat default)
          (demoRunningState.stimulusSequence.getD
            (demoRunningState.currentTrial.toNat - demoSettings.nLevel) default)
          ⟨none, none⟩ ResponseType.audio →
        s'.feedback.audio = some FeedbackType.miss) ∧
      s'.score = demoRunningState.score -
        (if missCondition demoSettings
            (demoRunningState.stimulusSequence.getD demoRunningState.currentTrial.toNat default)
            (demoRunningState.stimulusSequence.getD
              (demoRunningState.currentTrial.toNat - demoSettings.nLevel) default)
            ⟨none, none⟩ ResponseType.visual then 1 else 0) -
        (if missCondition demoSettings
            (demoRunningState.stimulusSequence.getD demoRunningState.currentTrial.toNat default)
            (demoRunningState.stimulusSequence.getD
              (demoRunningState.currentTrial.toNat - demoSettings.nLevel) default)
            ⟨none, none⟩ ResponseType.audio then 1 else 0) ∧
      ((missCondition demoSettings
          (demoRunningState.stimulusSequence.getD demoRunningState.currentTrial.toNat default)
          (demoRunningState.stimulusSequence.getD
            (demoRunningState.currentTrial.toNat - demoSettings.nLevel) default)
          ⟨none, none⟩ ResponseType.visual ∨
        missCondition demoSettings
          (demoRunningState.stimulusSequence.getD demoRunningState.currentTrial.toNat default)
          (demoRunningState.stimulusSequence.getD
            (demoRunningState.currentTrial.toNat - demoSettings.nLevel) default)
          ⟨none, none⟩ ResponseType.audio) →
        s'.showFeedbackUntil = 100 + FEEDBACK_DURATION_MS) :=
  nextTrial_resolves_misses demoRunningState demoSettings 100 ⟨none, none⟩
    rfl rfl (by decide) (by decide) (by rfl)

/-! ## Claims C1 and C9: generator loop invariants -/

theorem getD_append_lt {α : Type} (l l' : List α) (d : α) (j : Nat)
    (h : j < l.length) : (l ++ l').getD j d = l.getD j d := by
  rw [List.getD_eq_get?, List.getD_eq_get?, List.get?_append h]

theorem getD_snoc_self {α : Type} (l : List α) (x d : α) :
    (l ++ [x]).getD l.length d = x := by
  rw [List.getD_eq_get?, List.get?_concat_length]
  rfl

theorem visMatchAt_append (seq : List Stimulus) (x : Stimulus) (n j : Nat)
    (hj : j < seq.length) : visMatchAt (seq ++ [x]) n j = visMatchAt seq n j := by
  unfold visMatchAt
  rw [getD_append_lt _ _ _ _ hj, getD_append_lt _ _ _ _ (by omega)]

theorem audMatchAt_append (seq : List Stimulus) (x : Stimulus) (n j : Nat)
    (hj : j < seq.length) : audMatchAt (seq ++ [x]) n j = audMatchAt seq n j := by
  unfold audMatchAt
  rw [getD_append_lt _ _ _ _ hj, getD_append_lt _ _ _ _ (by omega)]

theorem countVisualMatches_snoc (n : Nat) (seq : List Stimulus) (x : Stimulus) :
    countVisualMatches n (seq ++ [x]) =
      countVisualMatches n seq +
        (if visMatchAt (seq ++ [x]) n seq.length = true then 1 else 0) := by
  unfold countVisualMatches
  rw [List.length_append, List.length_singleton, List.range_succ, List.countP_append,
    List.countP_singleton]
  congr 1
  exact List.countP_congr fun j hj => by
    rw [visMatchAt_append _ _ _ _ (List.mem_range.mp hj)]

theorem countAudioMatches_snoc (n : Nat) (seq : List Stimulus) (x : Stimulus) :
    countAudioMatches n (seq ++ [x]) =
      countAudioMatches n seq +
        (if audMatchAt (seq ++ [x]) n seq.length = true then 1 else 0) := by
  unfold countAudioMatches
  rw [List.length_append, List.length_singleton, List.range_succ, List.countP_append,
    List.countP_singleton]
  congr 1
  exact List.countP_congr fun j hj => by
    rw [audMatchAt_append _ _ _ _ (List.mem_range.mp hj)]

theorem drawVisualNonMatch_sound (mode : GameMode) (n i : Nat) (nbVis : Option Nat)
    (stream : Nat → Nat) :
    ∀ (fuel pos : Nat) (v : Option Nat) (pos' : Nat),
      drawVisualNonMatch mode n i nbVis stream pos fuel = some (v, pos') →
      ¬(n ≤ i ∧ mode ≠ GameMode.Audio ∧ v = nbVis ∧ v ≠ none) ∧
        (mode ≠ GameMode.Audio → v.isSome = true) := by
  intro fuel
  induction fuel with
  | zero => intro pos v pos' h; simp [drawVisualNonMatch] at h
  | succ fuel ih =>
    intro pos v pos' h
    rw [drawVisualNonMatch] at h
    by_cases hmode : mode = GameMode.Audio
    · simp only [hmode, if_pos rfl] at h
      rw [if_neg (by simp)] at h
      simp only [Option.some.injEq, Prod.mk.injEq] at h
      refine ⟨fun hc => hc.2.1 hmode, fun hc => absurd hmode hc⟩
    · simp only [if_neg hmode] at h
      by_cases hbad : n ≤ i ∧ mode ≠ GameMode.Audio ∧
          (some (stream pos % GRID_CELL_COUNT) : Option Nat) = nbVis ∧
          (some (stream pos % GRID_CELL_COUNT) : Option Nat) ≠ none
      · rw [if_pos hbad] at h
        exact ih _ _ _ h
      · rw [if_neg hbad] at h
        simp only [Option.some.injEq, Prod.mk.injEq] at h
        refine ⟨?_, fun _ => ?_⟩
        · rw [← h.1]
          exact hbad
        · rw [← h.1]
          rfl

theorem drawAudioNonMatch_sound (mode : GameMode) (n i : Nat) (nbAud : Option Char)
    (stream : Nat → Nat) :
    ∀ (fuel pos : Nat) (v : Option Char) (pos' : Nat),
      drawAudioNonMatch mode n i nbAud stream pos fuel = some (v, pos') →
      ¬(n ≤ i ∧ mode ≠ GameMode.Visual ∧ v = nbAud ∧ v ≠ none) ∧
        (mode ≠ GameMode.Visual → v.isSome = true) := by
  intro fuel
  induction fuel with
  | zero => intro pos v pos' h; simp [drawAudioNonMatch] at h
  | succ fuel ih =>
    intro pos v pos' h
    rw [drawAudioNonMatch] at h
    by_cases hmode : mode = GameMode.Visual
    · simp only [hmode, if_pos rfl] at h
      rw [if_neg (by simp)] at h
      simp only [Option.some.injEq, Prod.mk.injEq] at h
      refine ⟨fun hc => hc.2.1 hmode, fun hc => absurd hmode hc⟩
    · simp only [if_neg hmode] at h
      by_cases hbad : n ≤ i ∧ mode ≠ GameMode.Visual ∧
          (some (AUDIO_LETTERS.getD (stream pos % AUDIO_LETTERS.length) 'C') : Option Char) = nbAud ∧
          (some (AUDIO_LETTERS.getD (stream pos % AUDIO_LETTERS.length) 'C') : Option Char) ≠ none
      · rw [if_pos hbad] at h
        exact ih _ _ _ h
      · rw [if_neg hbad] at h
        simp only [Option.some.injEq, Prod.mk.injEq] at h
        refine ⟨?_, fun _ => ?_⟩
        · rw [← h.1]
          exact hbad
        · rw [← h.1]
          rfl

theorem visualStep_spec (stg : GameSettings) (stream : Nat → Nat)
    (fuel mV rem i : Nat) (nb? : Option Stimulus) (vc pos : Nat)
    (v : Option Nat) (dv : Bool) (vc' pos1 : Nat)
    (h : visualStep stg stream fuel mV rem i nb? vc pos = some (v, dv, vc', pos1)) :
    (dv = true → stg.nLevel ≤ i ∧ stg.gameMode ≠ GameMode.Audio ∧ vc' = vc + 1 ∧
      ∃ nb, nb? = some nb ∧ v = nb.visualPosition) ∧
    (dv = false → vc' = vc) ∧
    (dv = false → stg.gameMode ≠ GameMode.Audio → v.isSome = true) ∧
    (dv = false → stg.nLevel ≤ i → stg.gameMode ≠ GameMode.Audio →
      ∃ nb, nb? = some nb ∧ v ≠ nb.visualPosition) ∧
    (dv = false → stg.nLevel ≤ i → stg.gameMode ≠ GameMode.Audio →
      ¬(rem ≤ 2 * (mV - vc) ∧ 0 < mV - vc)) := by
  unfold visualStep at h
  by_cases hg : stg.nLevel ≤ i ∧ stg.gameMode ≠ GameMode.Audio
  · rw [if_pos hg] at h
    cases nb? with
    | none => simp at h
    | some nb =>
      simp only at h
      by_cases hforce : rem ≤ 2 * (mV - vc) ∧ 0 < mV - vc
      · rw [if_pos hforce] at h
        simp only [Option.some.injEq, Prod.mk.injEq] at h
        obtain ⟨hv, hdv, hvc, -⟩ := h
        subst hdv
        exact ⟨fun _ => ⟨hg.1, hg.2, hvc.symm, nb, rfl, hv.symm⟩,
          by simp, by simp, by simp, by simp⟩
      · rw [if_neg hforce] at h
        by_cases hroll : stream pos % 4 = 0
        · rw [if_pos hroll] at h
          simp only [Option.some.injEq, Prod.mk.injEq] at h
          obtain ⟨hv, hdv, hvc, -⟩ := h
          subst hdv
          exact ⟨fun _ => ⟨hg.1, hg.2, hvc.symm, nb, rfl, hv.symm⟩,
            by simp, by simp, by simp, by simp⟩
        · rw [if_neg hroll] at h
          cases hdraw : drawVisualNonMatch stg.gameMode stg.nLevel i nb.visualPosition
              stream (pos + 1) fuel with
          | none => rw [hdraw] at h; simp at h
          | some res =>
            obtain ⟨v0, p0⟩ := res
            rw [hdraw] at h
            simp only [Option.some.injEq, Prod.mk.injEq] at h
            obtain ⟨hv, hdv, hvc, -⟩ := h
            subst hv
            obtain ⟨hnm, his⟩ := drawVisualNonMatch_sound _ _ _ _ _ _ _ _ _ hdraw
            refine ⟨fun hc => by simp [← hdv] at hc, fun _ => hvc.symm,
              fun _ hmode => his hmode, fun _ _ hmode => ⟨nb, rfl, fun heq => ?_⟩,
              fun _ _ _ => hforce⟩
            have hsome := his hmode
            exact hnm ⟨hg.1, hg.2, heq, by
              intro hnone
              rw [hnone] at hsome
              simp at hsome⟩
  · rw [if_neg hg] at h
    cases hdraw : drawVisualNonMatch stg.gameMode stg.nLevel i none stream pos fuel with
    | none => rw [hdraw] at h; simp at h
    | some res =>
      obtain ⟨v0, p0⟩ := res
      rw [hdraw] at h
      simp only [Option.some.injEq, Prod.mk.injEq] at h
      obtain ⟨hv, hdv, hvc, -⟩ := h
      subst hv
      obtain ⟨-, his⟩ := drawVisualNonMatch_sound _ _ _ _ _ _ _ _ _ hdraw
      exact ⟨fun hc => by simp [← hdv] at hc, fun _ => hvc.symm,
        fun _ hmode => his hmode,
        fun _ hni hmode => absurd ⟨hni, hmode⟩ hg,
        fun _ hni hmode => absurd ⟨hni, hmode⟩ hg⟩

theorem audioStep_spec (stg : GameSettings) (stream : Nat → Nat)
    (fuel mA rem i : Nat) (nb? : Option Stimulus) (ac pos : Nat)
    (v : Option Char) (da : Bool) (ac' pos1 : Nat)
    (h : audioStep stg stream fuel mA rem i nb? ac pos = some (v, da, ac', pos1)) :
    (da = true → stg.nLevel ≤ i ∧ stg.gameMode ≠ GameMode.Visual ∧ ac' = ac + 1 ∧
      ∃ nb, nb? = some nb ∧ v = nb.audioLetter) ∧
    (da = false → ac' = ac) ∧
    (da = false → stg.gameMode ≠ GameMode.Visual → v.isSome = true) ∧
    (da = false → stg.nLevel ≤ i → stg.gameMode ≠ GameMode.Visual →
      ∃ nb, nb? = some nb ∧ v ≠ nb.audioLetter) ∧
    (da = false → stg.nLevel ≤ i → stg.gameMode ≠ GameMode.Visual →
      ¬(rem ≤ 2 * (mA - ac) ∧ 0 < mA - ac)) := by
  unfold audioStep at h
  by_cases hg : stg.nLevel ≤ i ∧ stg.gameMode ≠ GameMode.Visual
  · rw [if_pos hg] at h
    cases nb? with
    | none => simp at h
    | some nb =>
      simp only at h
      by_cases hforce : rem ≤ 2 * (mA - ac) ∧ 0 < mA - ac
      · rw [if_pos hforce] at h
        simp only [Option.some.injEq, Prod.mk.injEq] at h
        obtain ⟨hv, hdv, hvc, -⟩ := h
        subst hdv
        exact ⟨fun _ => ⟨hg.1, hg.2, hvc.symm, nb, rfl, hv.symm⟩,
          by simp, by simp, by simp, by simp⟩
      · rw [if_neg hforce] at h
        by_cases hroll : stream pos % 4 = 0
        · rw [if_pos hroll] at h
          simp only [Option.some.injEq, Prod.mk.injEq] at h
          obtain ⟨hv, hdv, hvc, -⟩ := h
          subst hdv
          exact ⟨fun _ => ⟨hg.1, hg.2, hvc.symm, nb, rfl, hv.symm⟩,
            by simp, by simp, by simp, by simp⟩
        · rw [if_neg hroll] at h
          cases hdraw : drawAudioNonMatch stg.gameMode stg.nLevel i nb.audioLetter
              stream (pos + 1) fuel with
          | none => rw [hdraw] at h; simp at h
          | some res =>
            obtain ⟨v0, p0⟩ := res
            rw [hdraw] at h
            simp only [Option.some.injEq, Prod.mk.injEq] at h
            obtain ⟨hv, hdv, hvc, -⟩ := h
            subst hv
            obtain ⟨hnm, his⟩ := drawAudioNonMatch_sound _ _ _ _ _ _ _ _ _ hdraw
            refine ⟨fun hc => by simp [← hdv] at hc, fun _ => hvc.symm,
              fun _ hmode => his hmode, fun _ _ hmode => ⟨nb, rfl, fun heq => ?_⟩,
              fun _ _ _ => hforce⟩
            have hsome := his hmode
            exact hnm ⟨hg.1, hg.2, heq, by
              intro hnone
              rw [hnone] at hsome
              simp at hsome⟩
  · rw [if_neg hg] at h
    cases hdraw : drawAudioNonMatch stg.gameMode stg.nLevel i none stream pos fuel with
    | none => rw [hdraw] at h; simp at h
    | some res =>
      obtain ⟨v0, p0⟩ := res
      rw [hdraw] at h
      simp only [Option.some.injEq, Prod.mk.injEq] at h
      obtain ⟨hv, hdv, hvc, -⟩ := h
      subst hv
      obtain ⟨-, his⟩ := drawAudioNonMatch_sound _ _ _ _ _ _ _ _ _ hdraw
      exact ⟨fun hc => by simp [← hdv] at hc, fun _ => hvc.symm,
        fun _ hmode => his hmode,
        fun _ hni hmode => absurd ⟨hni, hmode⟩ hg,
        fun _ hni hmode => absurd ⟨hni, hmode⟩ hg⟩

/-- The generation loop preserves, per enabled channel: all generated values
non-null, the created-matches counter bounded by the re-derived match count,
the no-self-collision property at non-match decisions, and — once the
forced-match invariant `2·(still-needed) + (N − i) ≤ remaining` holds — a
final created count of at least the minimum target. -/
theorem genLoop_invariant (stg : GameSettings) (stream : Nat → Nat) (fuel nT mV mA : Nat) :
    ∀ (r i : Nat) (seq : List Stimulus) (vd ad : List Bool) (vc ac pos : Nat) (tr : GenTrace),
      genLoop stg stream fuel nT mV mA r i seq vd ad vc ac pos = some tr →
      i + r = nT → seq.length = i → vd.length = i → ad.length = i →
      (stg.gameMode ≠ GameMode.Audio →
        (∀ j, j < i → ((seq.getD j default).visualPosition).isSome = true) ∧
        vc ≤ countVisualMatches stg.nLevel seq ∧
        (∀ j, j < i → stg.nLevel ≤ j → vd.getD j false = false →
          (seq.getD j default).visualPosition ≠
            (seq.getD (j - stg.nLevel) default).visualPosition)) →
      (stg.gameMode ≠ GameMode.Visual →
        (∀ j, j < i → ((seq.getD j default).audioLetter).isSome = true) ∧
        ac ≤ countAudioMatches stg.nLevel seq ∧
        (∀ j, j < i → stg.nLevel ≤ j → ad.getD j false = false →
          (seq.getD j default).audioLetter ≠
            (seq.getD (j - stg.nLevel) default).audioLetter)) →
      tr.seq.length = nT ∧ tr.visDec.length = nT ∧ tr.audDec.length = nT ∧
      (stg.gameMode ≠ GameMode.Audio →
        (∀ j, j < nT → ((tr.seq.getD j default).visualPosition).isSome = true) ∧
        tr.visCreated ≤ countVisualMatches stg.nLevel tr.seq ∧
        (∀ j, j < nT → stg.nLevel ≤ j → tr.visDec.getD j false = false →
          (tr.seq.getD j default).visualPosition ≠
            (tr.seq.getD (j - stg.nLevel) default).visualPosition) ∧
        (2 * (mV - vc) + (stg.nLevel - i) ≤ r → mV ≤ tr.visCreated)) ∧
      (stg.gameMode ≠ GameMode.Visual →
        (∀ j, j < nT → ((tr.seq.getD j default).audioLetter).isSome = true) ∧
        tr.audCreated ≤ countAudioMatches stg.nLevel tr.seq ∧
        (∀ j, j < nT → stg.nLevel ≤ j → tr.audDec.getD j false = false →
          (tr.seq.getD j default).audioLetter ≠
            (tr.seq.getD (j - stg.nLevel) default).audioLetter) ∧
        (2 * (mA - ac) + (stg.nLevel - i) ≤ r → mA ≤ tr.audCreated)) := by
  intro r
  induction r with
  | zero =>
    intro i seq vd ad vc ac pos tr h hri hseq hvd had hvis haud
    simp only [genLoop, Option.some.injEq] at h
    cases h
    dsimp only
    have hiT : i = nT := by omega
    refine ⟨by omega, by omega, by omega, fun hmode => ?_, fun hmode => ?_⟩
    · obtain ⟨hNN, hc, h9⟩ := hvis hmode
      exact ⟨fun j hj => hNN j (by omega), hc,
        fun j hj => h9 j (by omega), fun hJ => by omega⟩
    · obtain ⟨hNN, hc, h9⟩ := haud hmode
      exact ⟨fun j hj => hNN j (by omega), hc,
        fun j hj => h9 j (by omega), fun hJ => by omega⟩
  | succ r ih =>
    intro i seq vd ad vc ac pos tr h hri hseq hvd had hvis haud
    simp only [genLoop] at h
    cases hv : visualStep stg stream fuel mV (nT - i) i (seq.get? (i - stg.nLevel)) vc pos with
    | none => rw [hv] at h; simp at h
    | some resv =>
      obtain ⟨v, dv, vc', pos1⟩ := resv
      rw [hv] at h
      simp only at h
      cases ha : audioStep stg stream fuel mA (nT - i) i (seq.get? (i - stg.nLevel)) ac pos1 with
      | none => rw [ha] at h; simp at h
      | some resa =>
        obtain ⟨a, da, ac', pos2⟩ := resa
        rw [ha] at h
        simp only at h
        have hvspec := visualStep_spec _ _ _ _ _ _ _ _ _ _ _ _ _ hv
        have haspec := audioStep_spec _ _ _ _ _ _ _ _ _ _ _ _ _ ha
        have hx : (seq ++ [(⟨v, a⟩ : Stimulus)] : List Stimulus).getD i default = ⟨v, a⟩ := by
          rw [← hseq]; exact getD_snoc_self _ _ _
        have hxd : (vd ++ [dv]).getD i false = dv := by
          rw [← hvd]; exact getD_snoc_self _ _ _
        have hxa : (ad ++ [da]).getD i false = da := by
          rw [← had]; exact getD_snoc_self _ _ _
        have hvis' : stg.gameMode ≠ GameMode.Audio →
            (∀ j, j < i + 1 → (((seq ++ [(⟨v, a⟩ : Stimulus)]).getD j default).visualPosition).isSome = true) ∧
            vc' ≤ countVisualMatches stg.nLevel (seq ++ [(⟨v, a⟩ : Stimulus)]) ∧
            (∀ j, j < i + 1 → stg.nLevel ≤ j → (vd ++ [dv]).getD j false = false →
              ((seq ++ [(⟨v, a⟩ : Stimulus)]).getD j default).visualPosition ≠
                ((seq ++ [(⟨v, a⟩ : Stimulus)]).getD (j - stg.nLevel) default).visualPosition) := by
          intro hmode
          obtain ⟨hNN, hcount, h9⟩ := hvis hmode
          have hnewSome : v.isSome = true := by
            cases dv with
            | true =>
              obtain ⟨hni, -, -, nb, hnb, hveq⟩ := hvspec.1 rfl
              obtain ⟨hbound, -⟩ := List.get?_eq_some.mp hnb
              have hnbD : seq.getD (i - stg.nLevel) default = nb := by
                rw [List.getD_eq_get?, hnb]; rfl
              rw [hveq, ← hnbD]
              exact hNN (i - stg.nLevel) (by omega)
            | false => exact hvspec.2.2.1 rfl hmode
          refine ⟨?_, ?_, ?_⟩
          · intro j hj
            rcases Nat.lt_or_ge j i with hji | hji
            · rw [getD_append_lt _ _ _ _ (by omega)]
              exact hNN j hji
            · have hj' : j = i := by omega
              subst hj'
              rw [hx]
              exact hnewSome
          · cases dv with
            | true =>
              obtain ⟨hni, -, hvc1, nb, hnb, hveq⟩ := hvspec.1 rfl
              obtain ⟨hbound, -⟩ := List.get?_eq_some.mp hnb
              have hnbD : seq.getD (i - stg.nLevel) default = nb := by
                rw [List.getD_eq_get?, hnb]; rfl
              have hpred : visMatchAt (seq ++ [(⟨v, a⟩ : Stimulus)]) stg.nLevel seq.length = true := by
                unfold visMatchAt
                rw [getD_snoc_self,
                  getD_append_lt _ _ _ _ (show seq.length - stg.nLevel < seq.length by omega)]
                have h1 : seq.length - stg.nLevel = i - stg.nLevel := by rw [hseq]
                rw [h1, hnbD]
                simp only [Bool.and_eq_true, decide_eq_true_eq]
                exact ⟨⟨by omega, hnewSome⟩, hveq⟩
              rw [countVisualMatches_snoc, if_pos hpred]
              omega
            | false =>
              have hvc0 := hvspec.2.1 rfl
              rw [countVisualMatches_snoc, hvc0]
              exact le_trans hcount (Nat.le_add_right _ _)
          · intro j hj hnj hdec
            rcases Nat.lt_or_ge j i with hji | hji
            · rw [getD_append_lt _ _ _ _ (by omega), getD_append_lt _ _ _ _ (by omega)]
              rw [getD_append_lt _ _ _ _ (by omega)] at hdec
              exact h9 j hji hnj hdec
            · have hj' : j = i := by omega
              subst hj'
              rw [hxd] at hdec
              obtain ⟨nb, hnb, hne⟩ := hvspec.2.2.2.1 hdec hnj hmode
              obtain ⟨hbound, -⟩ := List.get?_eq_some.mp hnb
              have hnbD : seq.getD (j - stg.nLevel) default = nb := by
                rw [List.getD_eq_get?, hnb]; rfl
              rw [hx, getD_append_lt _ _ _ _ (by omega), hnbD]
              exact hne
        have haud' : stg.gameMode ≠ GameMode.Visual →
            (∀ j, j < i + 1 → (((seq ++ [(⟨v, a⟩ : Stimulus)]).getD j default).audioLetter).isSome = true) ∧
            ac' ≤ countAudioMatches stg.nLevel (seq ++ [(⟨v, a⟩ : Stimulus)]) ∧
            (∀ j, j < i + 1 → stg.nLevel ≤ j → (ad ++ [da]).getD j false = false →
              ((seq ++ [(⟨v, a⟩ : Stimulus)]).getD j default).audioLetter ≠
                ((seq ++ [(⟨v, a⟩ : Stimulus)]).getD (j - stg.nLevel) default).audioLetter) := by
          intro hmode
          obtain ⟨hNN, hcount, h9⟩ := haud hmode
          have hnewSome : a.isSome = true := by
            cases da with
            | true =>
              obtain ⟨hni, -, -, nb, hnb, hveq⟩ := haspec.1 rfl
              obtain ⟨hbound, -⟩ := List.get?_eq_some.mp hnb
              have hnbD : seq.getD (i - stg.nLevel) default = nb := by
                rw [List.getD_eq_get?, hnb]; rfl
              rw [hveq, ← hnbD]
              exact hNN (i - stg.nLevel) (by omega)
            | false => exact haspec.2.2.1 rfl hmode
          refine ⟨?_, ?_, ?_⟩
          · intro j hj
            rcases Nat.lt_or_ge j i with hji | hji
            · rw [getD_append_lt _ _ _ _ (by omega)]
              exact hNN j hji
            · have hj' : j = i := by omega
              subst hj'
              rw [hx]
              exact hnewSome
          · cases da with
            | true =>
              obtain ⟨hni, -, hvc1, nb, hnb, hveq⟩ := haspec.1 rfl
              obtain ⟨hbound, -⟩ := List.get?_eq_some.mp hnb
              have hnbD : seq.getD (i - stg.nLevel) default = nb := by
                rw [List.getD_eq_get?, hnb]; rfl
              have hpred : audMatchAt (seq ++ [(⟨v, a⟩ : Stimulus)]) stg.nLevel seq.length = true := by
                unfold audMatchAt
                rw [getD_snoc_self,
                  getD_append_lt _ _ _ _ (show seq.length - stg.nLevel < seq.length by omega)]
                have h1 : seq.length - stg.nLevel = i - stg.nLevel := by rw [hseq]
                rw [h1, hnbD]
                simp only [Bool.and_eq_true, decide_eq_true_eq]
                exact ⟨⟨by omega, hnewSome⟩, hveq⟩
              rw [countAudioMatches_snoc, if_pos hpred]
              omega
            | false =>
              have hvc0 := haspec.2.1 rfl
              rw [countAudioMatches_snoc, hvc0]
              exact le_trans hcount (Nat.le_add_right _ _)
          · intro j hj hnj hdec
            rcases Nat.lt_or_ge j i with hji | hji
            · rw [getD_append_lt _ _ _ _ (by omega), getD_append_lt _ _ _ _ (by omega)]
              rw [getD_append_lt _ _ _ _ (by omega)] at hdec
              exact h9 j hji hnj hdec
            · have hj' : j = i := by omega
              subst hj'
              rw [hxa] at hdec
              obtain ⟨nb, hnb, hne⟩ := haspec.2.2.2.1 hdec hnj hmode
              obtain ⟨hbound, -⟩ := List.get?_eq_some.mp hnb
              have hnbD : seq.getD (j - stg.nLevel) default = nb := by
                rw [List.getD_eq_get?, hnb]; rfl
              rw [hx, getD_append_lt _ _ _ _ (by omega), hnbD]
              exact hne
        obtain ⟨hl1, hl2, hl3, hvisC, haudC⟩ :=
          ih (i + 1) (seq ++ [(⟨v, a⟩ : Stimulus)]) (vd ++ [dv]) (ad ++ [da]) vc' ac' pos2 tr h
            (by omega) (by simp [hseq]) (by simp [hvd]) (by simp [had]) hvis' haud'
        refine ⟨hl1, hl2, hl3, fun hmode => ?_, fun hmode => ?_⟩
        · obtain ⟨c1, c2, c3, c4⟩ := hvisC hmode
          refine ⟨c1, c2, c3, fun hJ => c4 ?_⟩
          cases dv with
          | true =>
            have hvc1 := (hvspec.1 rfl).2.2.1
            omega
          | false =>
            have hvc0 := hvspec.2.1 rfl
            by_cases hni : stg.nLevel ≤ i
            · have hforce := hvspec.2.2.2.2 rfl hni hmode
              have hrem : nT - i = r + 1 := by omega
              rw [hrem] at hforce
              rcases not_and_or.mp hforce with hc | hc
              · omega
              · omega
            · omega
        · obtain ⟨c1, c2, c3, c4⟩ := haudC hmode
          refine ⟨c1, c2, c3, fun hJ => c4 ?_⟩
          cases da with
          | true =>
            have hvc1 := (haspec.1 rfl).2.2.1
            omega
          | false =>
            have hvc0 := haspec.2.1 rfl
            by_cases hni : stg.nLevel ≤ i
            · have hforce := haspec.2.2.2.2 rfl hni hmode
              have hrem : nT - i = r + 1 := by omega
              rw [hrem] at hforce
              rcases not_and_or.mp hforce with hc | hc
              · omega
              · omega
            · omega

/-- Claim C1: for the default timing (1500 ms + 2500 ms, hence 30 trials in
120 s) at N = 2 and any game mode, every terminating run of
`generateSequence` contains at least ⌈120/30·3⌉ = 12 true matches per enabled
channel, re-derived from the output sequence itself. -/
theorem generateSequence_min_match_guarantee (mode : GameMode) (stream : Nat → Nat)
    (fuel : Nat) (s : List Stimulus)
    (h : generateSequence (c1Settings mode) stream fuel = some s) :
    (mode ≠ GameMode.Audio → 12 ≤ countVisualMatches 2 s) ∧
    (mode ≠ GameMode.Visual → 12 ≤ countAudioMatches 2 s) := by
  unfold generateSequence at h
  obtain ⟨tr, htr, hs⟩ := Option.map_eq_some'.mp h
  subst hs
  unfold generateSequenceTrace at htr
  rw [if_neg (by simp [c1Settings, DEFAULT_SETTINGS])] at htr
  have hinv := genLoop_invariant _ _ _ _ _ _ _ _ _ _ _ _ _ _ _ htr
    (by omega) rfl rfl rfl
    (fun _ => ⟨fun j hj => absurd hj (by omega), Nat.zero_le _,
      fun j hj => absurd hj (by omega)⟩)
    (fun _ => ⟨fun j hj => absurd hj (by omega), Nat.zero_le _,
      fun j hj => absurd hj (by omega)⟩)
  obtain ⟨-, -, -, hvisC, haudC⟩ := hinv
  constructor
  · intro hmode
    have hmode' : (c1Settings mode).gameMode ≠ GameMode.Audio := hmode
    obtain ⟨-, hcount, -, hJ⟩ := hvisC hmode'
    have hMV : (if (c1Settings mode).gameMode ≠ GameMode.Audio then
        minMatchesTarget (c1Settings mode).sessionDuration else 0) = 12 := by
      rw [if_pos hmode']
      show minMatchesTarget 120 = 12
      rfl
    rw [hMV] at hJ
    refine le_trans (hJ ?_) hcount
    have h30 : ((((c1Settings mode).sessionDuration : Int) * 1000).fdiv
        ((c1Settings mode).stimulusDuration + (c1Settings mode).interStimulusInterval)).toNat
        = 30 := by
      norm_num [c1Settings, DEFAULT_SETTINGS]
      decide
    rw [h30]
    show 2 * (12 - 0) + (2 - 0) ≤ 30
    decide
  · intro hmode
    have hmode' : (c1Settings mode).gameMode ≠ GameMode.Visual := hmode
    obtain ⟨-, hcount, -, hJ⟩ := haudC hmode'
    have hMA : (if (c1Settings mode).gameMode ≠ GameMode.Visual then
        minMatchesTarget (c1Settings mode).sessionDuration else 0) = 12 := by
      rw [if_pos hmode']
      show minMatchesTarget 120 = 12
      rfl
    rw [hMA] at hJ
    refine le_trans (hJ ?_) hcount
    have h30 : ((((c1Settings mode).sessionDuration : Int) * 1000).fdiv
        ((c1Settings mode).stimulusDuration + (c1Settings mode).interStimulusInterval)).toNat
        = 30 := by
      norm_num [c1Settings, DEFAULT_SETTINGS]
      decide
    rw [h30]
    show 2 * (12 - 0) + (2 - 0) ≤ 30
    decide

/-- Witness for C1: dual mode, the stream `idStream`, fuel 9. -/
theorem generateSequence_min_match_guarantee_witness :
    (GameMode.Dual ≠ GameMode.Audio → 12 ≤ countVisualMatches 2 c1WitnessTrace.seq) ∧
    (GameMode.Dual ≠ GameMode.Visual → 12 ≤ countAudioMatches 2 c1WitnessTrace.seq) :=
  generateSequence_min_match_guarantee GameMode.Dual idStream 9 c1WitnessTrace.seq (by rfl)

/-- Claim C9: for every settings and random stream, at every trial index
`i ≥ N` of a terminating run where the generator did not decide a match on an
enabled channel, the generated value differs from the value `N` steps back,
and both are non-null. -/
theorem generateSequence_no_self_collision (stg : GameSettings) (stream : Nat → Nat)
    (fuel : Nat) (tr : GenTrace)
    (h : generateSequenceTrace stg stream fuel = some tr)
    (i : Nat) (hn : stg.nLevel ≤ i) (hi : i < tr.seq.length) :
    (stg.gameMode ≠ GameMode.Audio → tr.visDec.getD i false = false →
      (tr.seq.getD i default).visualPosition ≠ none ∧
      (tr.seq.getD (i - stg.nLevel) default).visualPosition ≠ none ∧
      (tr.seq.getD i default).visualPosition ≠
        (tr.seq.getD (i - stg.nLevel) default).visualPosition) ∧
    (stg.gameMode ≠ GameMode.Visual → tr.audDec.getD i false = false →
      (tr.seq.getD i default).audioLetter ≠ none ∧
      (tr.seq.getD (i - stg.nLevel) default).audioLetter ≠ none ∧
      (tr.seq.getD i default).audioLetter ≠
        (tr.seq.getD (i - stg.nLevel) default).audioLetter) := by
  unfold generateSequenceTrace at h
  by_cases htd : stg.stimulusDuration + stg.interStimulusInterval ≤ 0
  · rw [if_pos htd] at h
    simp only [Option.some.injEq] at h
    cases h
    simp at hi
  · rw [if_neg htd] at h
    have hinv := genLoop_invariant _ _ _ _ _ _ _ _ _ _ _ _ _ _ _ h
      (by omega) rfl rfl rfl
      (fun _ => ⟨fun j hj => absurd hj (by omega), Nat.zero_le _,
        fun j hj => absurd hj (by omega)⟩)
      (fun _ => ⟨fun j hj => absurd hj (by omega), Nat.zero_le _,
        fun j hj => absurd hj (by omega)⟩)
    obtain ⟨hlen, -, -, hvisC, haudC⟩ := hinv
    constructor
    · intro hmode hdec
      obtain ⟨hNN, -, h9, -⟩ := hvisC hmode
      exact ⟨Option.ne_none_iff_isSome.mpr (hNN i (by omega)),
        Option.ne_none_iff_isSome.mpr (hNN (i - stg.nLevel) (by omega)),
        h9 i (by omega) hn hdec⟩
    · intro hmode hdec
      obtain ⟨hNN, -, h9, -⟩ := haudC hmode
      exact ⟨Option.ne_none_iff_isSome.mpr (hNN i (by omega)),
        Option.ne_none_iff_isSome.mpr (hNN (i - stg.nLevel) (by omega)),
        h9 i (by omega) hn hdec⟩

/-- Witness for C9: trial 2 of the run at `c9Settings` from `idStream`, where
neither channel decided a match. -/
theorem generateSequence_no_self_collision_witness :
    ((c9WitnessTrace.seq.getD 2 default).visualPosition ≠ none ∧
      (c9WitnessTrace.seq.getD (2 - c9Settings.nLevel) default).visualPosition ≠ none ∧
      (c9WitnessTrace.seq.getD 2 default).visualPosition ≠
        (c9WitnessTrace.seq.getD (2 - c9Settings.nLevel) default).visualPosition) ∧
    ((c9WitnessTrace.seq.getD 2 default).audioLetter ≠ none ∧
      (c9WitnessTrace.seq.getD (2 - c9Settings.nLevel) default).audioLetter ≠ none ∧
      (c9WitnessTrace.seq.getD 2 default).audioLetter ≠
        (c9WitnessTrace.seq.getD (2 - c9Settings.nLevel) default).audioLetter) :=
  ⟨(generateSequence_no_self_collision c9Settings idStream 9 c9WitnessTrace (by rfl) 2
      (by decide) (by decide)).1 (by decide) (by rfl),
    (generateSequence_no_self_collision c9Settings idStream 9 c9WitnessTrace (by rfl) 2
      (by decide) (by decide)).2 (by decide) (by rfl)⟩
